import Mathlib

/-!
Verification of the translateNowBot Telegram bot (src/translator_bot.py).

The bot is embedded shallowly: each handler becomes a pure function from its
inputs (the language catalog, an injected translation gateway, the message
fields) to the ordered list of observable effects it performs.  The external
translation gateway is a function returning `Except Unit TransResult`, with
`Except.error` standing for a raised exception.  Python string helpers
(`strip`, `lower`, `capitalize`, `split(c, 1)`) are modelled character-wise.
-/

/-- The language catalog (`LANGUAGES` from googletrans): a mapping from
language code to display name, modelled as an association list. -/
abbrev Catalog := List (String × String)

/-- Result of `translator.translate`: the translated text and the detected
source language code (`.text` and `.src` in the Python object). -/
structure TransResult where
  text : String
  src : String
deriving Repr, DecidableEq

/-- The translation gateway: `translate(text, dest)` either returns a result
or raises (modelled as `Except.error`). -/
abbrev Gateway := String → String → Except Unit TransResult

/-- Python `str.strip()`: remove leading and trailing whitespace. -/
def pyStrip (s : String) : String :=
  String.mk (((s.data.dropWhile Char.isWhitespace).reverse.dropWhile Char.isWhitespace).reverse)

/-- Python `str.lower()`: lower-case every character. -/
def pyLower (s : String) : String :=
  String.mk (s.data.map Char.toLower)

/-- Python `str.capitalize()`: upper-case the first character, lower-case the
rest. -/
def pyCapitalize (s : String) : String :=
  match s.data with
  | [] => ""
  | c :: cs => String.mk (c.toUpper :: cs.map Char.toLower)

/-- Python `":" in s`. -/
def containsColon (s : String) : Bool :=
  s.data.any (fun ch => ch = ':')

/-- Python `s.split(":", 1)` for a string containing a colon: the part before
the first colon and the part after it. -/
def split_first_colon (s : String) : String × String :=
  (String.mk (s.data.takeWhile (fun ch => ch ≠ ':')),
   String.mk ((s.data.dropWhile (fun ch => ch ≠ ':')).tail))

/-- One observable effect of a handler. -/
inductive Event where
  /-- `update.message.reply_text text` -/
  | reply (text : String)
  /-- `original_message.reply_text text` (reply attached to the replied-to message) -/
  | replyOrig (text : String)
  /-- call into `translator.translate(input, dest)` -/
  | gatewayTranslate (input : String) (dest : String)
  /-- `context.bot.delete_message(...)` attempt -/
  | deleteAttempt
  /-- `logger.warning(...)` for a failed delete -/
  | logWarning
deriving Repr, DecidableEq

/-- The user-facing messages among a handler's effects, in order. -/
def userFacing (evs : List Event) : List String :=
  evs.filterMap fun e =>
    match e with
    | .reply t => some t
    | .replyOrig t => some t
    | _ => none

/-- The `(input, dest)` pairs of the gateway calls among a handler's effects. -/
def gatewayCalls (evs : List Event) : List (String × String) :=
  evs.filterMap fun e =>
    match e with
    | .gatewayTranslate i d => some (i, d)
    | _ => none

/-- Usage message sent when a private-chat message has no colon. -/
def private_usage_msg : String :=
  "In a private chat, please use the format `lang_code: your text` to translate.\n*Example:* `de: Hello, how are you?`"

/-- Corrective message for an empty text payload. -/
def empty_payload_msg : String :=
  "Please provide some text after the language code."

/-- Corrective message for an unknown language code. -/
def invalid_code_msg (code : String) : String :=
  "\x27" ++ code ++ "\x27 is not a valid language code. Use /languages to see the list."

/-- Generic failure message on a gateway error. -/
def translation_error_msg : String :=
  "Sorry, an error occurred during translation."

/-- Usage message when /translate is not used as a reply. -/
def reply_usage_msg : String :=
  "Please use this command as a reply to the message you want to translate."

/-- Usage message when /translate has no language-code argument. -/
def arg_usage_msg : String :=
  "Please provide a language code after the command. Example: `/translate en`"

/-- The successful-translation reply text. -/
def response_msg (detectedName targetName translatedText : String) : String :=
  "Translated from **" ++ detectedName ++ "** to **" ++ targetName ++ "**:\n\n`" ++ translatedText ++ "`"

/-- `direct_translate(update, context)`: private-chat handler for
`lang_code: text` messages (src/translator_bot.py lines 53-90). -/
def direct_translate (LANGUAGES : Catalog) (gw : Gateway) (user_text : String) : List Event :=
  if containsColon user_text = false then
    [.reply private_usage_msg]
  else
    let parts := split_first_colon user_text
    if pyStrip parts.2 = "" then
      [.reply empty_payload_msg]
    else
      let lang_code := pyLower (pyStrip parts.1)
      let text_to_translate := pyStrip parts.2
      if LANGUAGES.lookup lang_code = none then
        [.reply (invalid_code_msg lang_code)]
      else
        match gw text_to_translate lang_code with
        | .ok translated =>
            [.gatewayTranslate text_to_translate lang_code,
             .reply (response_msg
               (pyCapitalize ((LANGUAGES.lookup translated.src).getD "Unknown"))
               (pyCapitalize ((LANGUAGES.lookup lang_code).getD ""))
               translated.text)]
        | .error _ =>
            [.gatewayTranslate text_to_translate lang_code,
             .reply translation_error_msg]

/-- `translate_command_reply(update, context)`: the /translate reply handler
(src/translator_bot.py lines 93-133).  `reply_to_message` is `none` when the
command message is not a reply; the inner `Option String` is the replied-to
message's text (`none` when absent).  `args` are the command arguments and
`delete_ok` tells whether the delete-message side effect succeeds. -/
def translate_command_reply (LANGUAGES : Catalog) (gw : Gateway)
    (reply_to_message : Option (Option String)) (args : List String)
    (delete_ok : Bool) : List Event :=
  match reply_to_message with
  | none => [.reply reply_usage_msg]
  | some original_text =>
    match args with
    | [] => [.reply arg_usage_msg]
    | arg0 :: _ =>
      let target_lang := pyLower arg0
      if LANGUAGES.lookup target_lang = none then
        [.reply (invalid_code_msg target_lang)]
      else
        -- Python `if not original_message.text`: both a missing text and an
        -- empty text are falsy.
        if original_text.getD "" = "" then
          []
        else
          match gw (original_text.getD "") target_lang with
          | .ok translated =>
              [.gatewayTranslate (original_text.getD "") target_lang,
               .replyOrig (response_msg
                 (pyCapitalize ((LANGUAGES.lookup translated.src).getD "Unknown"))
                 (pyCapitalize ((LANGUAGES.lookup target_lang).getD ""))
                 translated.text),
               .deleteAttempt] ++ (if delete_ok then [] else [.logWarning])
          | .error _ =>
              [.gatewayTranslate (original_text.getD "") target_lang,
               .reply translation_error_msg]

/-- One observable step of `main` (src/translator_bot.py lines 136-161). -/
inductive MainEvent where
  | fatalNoToken
  | fatalNoTranslator
  | buildUpdater
  | registerHandlers
  | startPolling
  | idle
deriving Repr, DecidableEq

/-- `main()` (named `bot_main` since Lean reserves `main`): `TELEGRAM_TOKEN` is `os.environ.get("TELEGRAM_TOKEN")` (`none`
when the variable is absent); `translator_ok` tells whether the module-level
translator was initialized. -/
def bot_main (TELEGRAM_TOKEN : Option String) (translator_ok : Bool) : List MainEvent :=
  -- Python `if not TELEGRAM_TOKEN`: None and "" are both falsy.
  if TELEGRAM_TOKEN.getD "" = "" then
    [.fatalNoToken]
  else if translator_ok = false then
    [.fatalNoTranslator]
  else
    [.buildUpdater, .registerHandlers, .startPolling, .idle]

/-- A small concrete catalog for witnesses. -/
def demoCatalog : Catalog := [("en", "english"), ("fr", "french")]

/-- A gateway that always succeeds, echoing the input with detected source "es". -/
def gwOk : Gateway := fun t _ => Except.ok { text := t, src := "es" }

/-- A gateway that always fails. -/
def gwFail : Gateway := fun _ _ => Except.error ()

/-! ## Helper lemmas about the string model -/

theorem takeWhile_append_colon (l r : List Char) (h : ∀ x ∈ l, x ≠ ':') :
    (l ++ ':' :: r).takeWhile (fun ch => ch ≠ ':') = l := by
  induction l with
  | nil => simp [List.takeWhile]
  | cons a t ih =>
    have ha : a ≠ ':' := h a (List.mem_cons_self a t)
    rw [List.cons_append, List.takeWhile_cons_of_pos (by simpa using ha),
      ih (fun x hx => h x (List.mem_cons_of_mem a hx))]

theorem dropWhile_append_colon (l r : List Char) (h : ∀ x ∈ l, x ≠ ':') :
    (l ++ ':' :: r).dropWhile (fun ch => ch ≠ ':') = ':' :: r := by
  induction l with
  | nil => simp [List.dropWhile]
  | cons a t ih =>
    have ha : a ≠ ':' := h a (List.mem_cons_self a t)
    rw [List.cons_append, List.dropWhile_cons_of_pos (by simpa using ha),
      ih (fun x hx => h x (List.mem_cons_of_mem a hx))]

theorem mk_data (s : String) : String.mk s.data = s := rfl

theorem data_append3 (c p : String) :
    (c ++ ":" ++ p).data = c.data ++ ':' :: p.data := by
  simp [String.data_append]

theorem containsColon_false_forall (c : String) (hc : containsColon c = false) :
    ∀ x ∈ c.data, x ≠ ':' := by
  intro x hx
  simp only [containsColon, List.any_eq_false] at hc
  have := hc x hx
  simpa using this

theorem containsColon_append (c p : String) :
    containsColon (c ++ ":" ++ p) = true := by
  simp [containsColon, data_append3, List.any_eq_true]

theorem split_first_colon_append (c p : String) (hc : containsColon c = false) :
    split_first_colon (c ++ ":" ++ p) = (c, p) := by
  have h := containsColon_false_forall c hc
  simp only [split_first_colon, data_append3]
  rw [takeWhile_append_colon c.data p.data h, dropWhile_append_colon c.data p.data h]
  simp [mk_data]

/-- Both branches of the direct handler once all validation passes: the
handler calls the gateway on the stripped payload and the normalized code. -/
theorem direct_translate_valid_branch (L : Catalog) (gw : Gateway) (c p : String)
    (hc : containsColon c = false) (hp : pyStrip p ≠ "")
    (hl : L.lookup (pyLower (pyStrip c)) ≠ none) :
    direct_translate L gw (c ++ ":" ++ p) =
      match gw (pyStrip p) (pyLower (pyStrip c)) with
      | .ok translated =>
          [.gatewayTranslate (pyStrip p) (pyLower (pyStrip c)),
           .reply (response_msg
             (pyCapitalize ((L.lookup translated.src).getD "Unknown"))
             (pyCapitalize ((L.lookup (pyLower (pyStrip c))).getD ""))
             translated.text)]
      | .error _ =>
          [.gatewayTranslate (pyStrip p) (pyLower (pyStrip c)),
           .reply translation_error_msg] := by
  unfold direct_translate
  rw [containsColon_append, split_first_colon_append c p hc]
  simp [hp, hl]

/-! ## Claims -/

/-- C1: for a private-chat text `<code>: <payload>` whose code portion,
stripped and lower-cased, is a catalog key and whose payload is non-empty
after stripping, `direct_translate` takes the direct-translation branch and
calls the gateway with target the stripped lower-cased code and input the
stripped payload, the message being split at its first colon. -/
theorem c1_direct_branch_gateway_call (L : Catalog) (gw : Gateway) (c p : String)
    (hc : containsColon c = false)
    (hl : (L.lookup (pyLower (pyStrip c))).isSome = true)
    (hp : pyStrip p ≠ "") :
    gatewayCalls (direct_translate L gw (c ++ ":" ++ p))
      = [(pyStrip p, pyLower (pyStrip c))] := by
  have hl' : L.lookup (pyLower (pyStrip c)) ≠ none := by
    intro h
    rw [h] at hl
    simp at hl
  rw [direct_translate_valid_branch L gw c p hc hp hl']
  cases gw (pyStrip p) (pyLower (pyStrip c)) <;> simp [gatewayCalls]

/-- Witness for C1 at the concrete message `"EN : hola"`. -/
theorem c1_direct_branch_gateway_call_witness :
    gatewayCalls (direct_translate demoCatalog gwOk ("EN " ++ ":" ++ " hola"))
      = [(pyStrip " hola", pyLower (pyStrip "EN "))] :=
  c1_direct_branch_gateway_call demoCatalog gwOk "EN " " hola"
    (by decide) (by decide) (by decide)

/-- Both branches of the reply handler once all validation passes. -/
theorem translate_command_reply_valid_branch (L : Catalog) (gw : Gateway)
    (ot code : String) (rest : List String) (dok : Bool)
    (ht : ot ≠ "") (hl : L.lookup (pyLower code) ≠ none) :
    translate_command_reply L gw (some (some ot)) (code :: rest) dok =
      match gw ot (pyLower code) with
      | .ok translated =>
          [.gatewayTranslate ot (pyLower code),
           .replyOrig (response_msg
             (pyCapitalize ((L.lookup translated.src).getD "Unknown"))
             (pyCapitalize ((L.lookup (pyLower code)).getD ""))
             translated.text),
           .deleteAttempt] ++ (if dok then [] else [.logWarning])
      | .error _ =>
          [.gatewayTranslate ot (pyLower code),
           .reply translation_error_msg] := by
  unfold translate_command_reply
  simp [ht, hl]

/-- C2 counterexample: a /translate reply carrying the unknown code "xx"
does produce an outgoing message (the corrective reply), so the handler does
not "take no action". -/
theorem c2_unknown_code_counterexample :
    userFacing (translate_command_reply demoCatalog gwFail
      (some (some "hola")) ["xx"] true) ≠ [] := by
  decide

/-- C2 amended: for a reply-triggered request whose supplied language code,
lower-cased, is not a catalog key, the handler sends a single corrective
message naming the invalid code and returns without calling the gateway. -/
theorem c2_unknown_code_corrective (L : Catalog) (gw : Gateway)
    (ot : Option String) (code : String) (rest : List String) (dok : Bool)
    (hl : L.lookup (pyLower code) = none) :
    translate_command_reply L gw (some ot) (code :: rest) dok
        = [Event.reply (invalid_code_msg (pyLower code))]
      ∧ gatewayCalls (translate_command_reply L gw (some ot) (code :: rest) dok)
        = [] := by
  unfold translate_command_reply
  simp [hl, gatewayCalls]

/-- Witness for the amended C2 at the concrete code "xx". -/
theorem c2_unknown_code_corrective_witness :
    translate_command_reply demoCatalog gwFail (some (some "hola")) ["xx"] true
        = [Event.reply (invalid_code_msg (pyLower "xx"))]
      ∧ gatewayCalls (translate_command_reply demoCatalog gwFail
          (some (some "hola")) ["xx"] true) = [] :=
  c2_unknown_code_corrective demoCatalog gwFail (some "hola") "xx" [] true (by decide)

/-- C5: a reply-triggered request with a valid target code whose replied-to
message has no text produces no effects at all: no reply and no gateway
call. -/
theorem c5_no_text_no_output (L : Catalog) (gw : Gateway)
    (ot : Option String) (code : String) (rest : List String) (dok : Bool)
    (hl : (L.lookup (pyLower code)).isSome = true)
    (hot : ot.getD "" = "") :
    translate_command_reply L gw (some ot) (code :: rest) dok = [] := by
  have hl' : L.lookup (pyLower code) ≠ none := by
    intro h
    rw [h] at hl
    simp at hl
  unfold translate_command_reply
  simp [hl', hot]

/-- Witness for C5 with a text-less replied-to message and the valid code "en". -/
theorem c5_no_text_no_output_witness :
    translate_command_reply demoCatalog gwOk (some none) ["en"] true = [] :=
  c5_no_text_no_output demoCatalog gwOk none "en" [] true (by decide) (by decide)

/-- C9: a /translate command that is not a reply gets exactly the
reply-usage message (whatever its arguments, so the missing reply target is
reported before a missing argument), and a reply-based /translate without
arguments gets exactly the argument-usage message; neither calls the
gateway. -/
theorem c9_usage_errors (L : Catalog) (gw : Gateway) (args : List String)
    (ot : Option String) (dok : Bool) :
    (translate_command_reply L gw none args dok = [Event.reply reply_usage_msg]
      ∧ gatewayCalls (translate_command_reply L gw none args dok) = [])
    ∧ (translate_command_reply L gw (some ot) [] dok = [Event.reply arg_usage_msg]
      ∧ gatewayCalls (translate_command_reply L gw (some ot) [] dok) = []) := by
  refine ⟨⟨rfl, rfl⟩, ⟨rfl, rfl⟩⟩

/-- The successful-translation reply never coincides with the generic
failure message (their first characters differ). -/
theorem response_msg_ne_error (a b t : String) :
    response_msg a b t ≠ translation_error_msg := by
  intro h
  have h2 : (response_msg a b t).data.head? = translation_error_msg.data.head? := by
    rw [h]
  have hT : ("Translated from **" : String).data.head? = some 'T' := rfl
  simp only [response_msg, translation_error_msg, String.data_append,
    List.head?_append, hT] at h2
  simp at h2

/-- C3: when the gateway's translate call fails, each handler emits exactly
one user-facing message, the generic failure reply, and nothing else. -/
theorem c3_gateway_failure_single_reply (L : Catalog) (gw : Gateway)
    (c p ot code : String) (rest : List String) (dok : Bool)
    (hc : containsColon c = false) (hp : pyStrip p ≠ "")
    (hl : (L.lookup (pyLower (pyStrip c))).isSome = true)
    (hgw1 : gw (pyStrip p) (pyLower (pyStrip c)) = Except.error ())
    (ht : ot ≠ "")
    (hl2 : (L.lookup (pyLower code)).isSome = true)
    (hgw2 : gw ot (pyLower code) = Except.error ()) :
    userFacing (direct_translate L gw (c ++ ":" ++ p)) = [translation_error_msg]
    ∧ userFacing (translate_command_reply L gw (some (some ot)) (code :: rest) dok)
        = [translation_error_msg] := by
  have hl' : L.lookup (pyLower (pyStrip c)) ≠ none := by
    intro h
    rw [h] at hl
    simp at hl
  have hl2' : L.lookup (pyLower code) ≠ none := by
    intro h
    rw [h] at hl2
    simp at hl2
  constructor
  · rw [direct_translate_valid_branch L gw c p hc hp hl', hgw1]
    simp [userFacing]
  · rw [translate_command_reply_valid_branch L gw ot code rest dok ht hl2', hgw2]
    simp [userFacing]

/-- Witness for C3: both handlers on a failing gateway produce exactly the
generic failure message. -/
theorem c3_gateway_failure_single_reply_witness :
    userFacing (direct_translate demoCatalog gwFail ("en" ++ ":" ++ " hi"))
        = [translation_error_msg]
    ∧ userFacing (translate_command_reply demoCatalog gwFail
        (some (some "hola")) ["EN"] true) = [translation_error_msg] :=
  c3_gateway_failure_single_reply demoCatalog gwFail "en" " hi" "hola" "EN" [] true
    (by decide) (by decide) (by decide) rfl (by decide) (by decide) rfl

/-- C6: in the private-chat handler, a message with a colon but an
empty-after-stripping payload gets exactly the corrective
"provide some text" message with no gateway call, and an unknown code never
reaches the gateway either. -/
theorem c6_direct_validation_errors (L : Catalog) (gw : Gateway) (s : String)
    (h1 : containsColon s = true) :
    (pyStrip (split_first_colon s).2 = "" →
      direct_translate L gw s = [Event.reply empty_payload_msg]
      ∧ gatewayCalls (direct_translate L gw s) = [])
    ∧ (L.lookup (pyLower (pyStrip (split_first_colon s).1)) = none →
      gatewayCalls (direct_translate L gw s) = []) := by
  constructor
  · intro h2
    unfold direct_translate
    rw [h1]
    simp [h2, gatewayCalls]
  · intro h3
    unfold direct_translate
    rw [h1]
    by_cases h2 : pyStrip (split_first_colon s).2 = ""
    · simp [h2, gatewayCalls]
    · simp [h2, h3, gatewayCalls]

/-- Witness for C6 on the concrete message "xx:  " (blank payload, and "xx"
is also not a catalog key). -/
theorem c6_direct_validation_errors_witness :
    (direct_translate demoCatalog gwFail "xx:  " = [Event.reply empty_payload_msg]
      ∧ gatewayCalls (direct_translate demoCatalog gwFail "xx:  ") = [])
    ∧ gatewayCalls (direct_translate demoCatalog gwFail "xx:  ") = [] :=
  ⟨(c6_direct_validation_errors demoCatalog gwFail "xx:  " (by decide)).1 (by decide),
   (c6_direct_validation_errors demoCatalog gwFail "xx:  " (by decide)).2 (by decide)⟩

/-- C7: after a successful reply-triggered translation, a failing
delete-message side effect only adds a log entry: the effect list is the
successful one plus the warning, the user still sees exactly the translated
reply, and no error message is shown. -/
theorem c7_delete_failure_swallowed (L : Catalog) (gw : Gateway)
    (ot code : String) (rest : List String) (tr : TransResult)
    (ht : ot ≠ "") (hl : (L.lookup (pyLower code)).isSome = true)
    (hgw : gw ot (pyLower code) = Except.ok tr) :
    translate_command_reply L gw (some (some ot)) (code :: rest) false
      = translate_command_reply L gw (some (some ot)) (code :: rest) true
          ++ [Event.logWarning]
    ∧ userFacing (translate_command_reply L gw (some (some ot)) (code :: rest) false)
      = [response_msg (pyCapitalize ((L.lookup tr.src).getD "Unknown"))
          (pyCapitalize ((L.lookup (pyLower code)).getD "")) tr.text]
    ∧ translation_error_msg ∉
        userFacing (translate_command_reply L gw (some (some ot)) (code :: rest) false) := by
  have hl' : L.lookup (pyLower code) ≠ none := by
    intro h
    rw [h] at hl
    simp at hl
  rw [translate_command_reply_valid_branch L gw ot code rest false ht hl',
    translate_command_reply_valid_branch L gw ot code rest true ht hl', hgw]
  refine ⟨by simp, by simp [userFacing], ?_⟩
  simp [userFacing]
  exact fun h => (response_msg_ne_error _ _ _ h.symm).elim

/-- Witness for C7 on a concrete successful translation. -/
theorem c7_delete_failure_swallowed_witness :
    translate_command_reply demoCatalog gwOk (some (some "hola")) ["en"] false
      = translate_command_reply demoCatalog gwOk (some (some "hola")) ["en"] true
          ++ [Event.logWarning]
    ∧ userFacing (translate_command_reply demoCatalog gwOk (some (some "hola")) ["en"] false)
      = [response_msg (pyCapitalize ((demoCatalog.lookup "es").getD "Unknown"))
          (pyCapitalize ((demoCatalog.lookup (pyLower "en")).getD "")) "hola"]
    ∧ translation_error_msg ∉
        userFacing (translate_command_reply demoCatalog gwOk (some (some "hola")) ["en"] false) :=
  c7_delete_failure_swallowed demoCatalog gwOk "hola" "en" [] ⟨"hola", "es"⟩
    (by decide) (by decide) rfl

/-- C8: with the bot token absent from the environment, `main` stops fatally
at once: it emits only the fatal-token step and never builds the updater,
registers a handler, or starts polling. -/
theorem c8_missing_token_fatal (translator_ok : Bool) :
    bot_main none translator_ok = [MainEvent.fatalNoToken]
    ∧ MainEvent.buildUpdater ∉ bot_main none translator_ok
    ∧ MainEvent.registerHandlers ∉ bot_main none translator_ok
    ∧ MainEvent.startPolling ∉ bot_main none translator_ok := by
  have h : bot_main none translator_ok = [MainEvent.fatalNoToken] := rfl
  refine ⟨h, ?_, ?_, ?_⟩ <;> rw [h] <;> simp

/-- C10: when the gateway succeeds but reports a source code outside the
catalog, the name lookup totally falls back to "Unknown" and each handler
still produces its well-formed reply. -/
theorem c10_unknown_source_fallback (L : Catalog) (gw : Gateway)
    (c p ot code : String) (rest : List String) (dok : Bool)
    (tr1 tr2 : TransResult)
    (hc : containsColon c = false) (hp : pyStrip p ≠ "")
    (hl : (L.lookup (pyLower (pyStrip c))).isSome = true)
    (hgw1 : gw (pyStrip p) (pyLower (pyStrip c)) = Except.ok tr1)
    (hsrc1 : L.lookup tr1.src = none)
    (ht : ot ≠ "")
    (hl2 : (L.lookup (pyLower code)).isSome = true)
    (hgw2 : gw ot (pyLower code) = Except.ok tr2)
    (hsrc2 : L.lookup tr2.src = none) :
    direct_translate L gw (c ++ ":" ++ p)
      = [Event.gatewayTranslate (pyStrip p) (pyLower (pyStrip c)),
         Event.reply (response_msg (pyCapitalize "Unknown")
           (pyCapitalize ((L.lookup (pyLower (pyStrip c))).getD "")) tr1.text)]
    ∧ translate_command_reply L gw (some (some ot)) (code :: rest) dok
      = [Event.gatewayTranslate ot (pyLower code),
         Event.replyOrig (response_msg (pyCapitalize "Unknown")
           (pyCapitalize ((L.lookup (pyLower code)).getD "")) tr2.text),
         Event.deleteAttempt] ++ (if dok then [] else [Event.logWarning]) := by
  have hl' : L.lookup (pyLower (pyStrip c)) ≠ none := by
    intro h
    rw [h] at hl
    simp at hl
  have hl2' : L.lookup (pyLower code) ≠ none := by
    intro h
    rw [h] at hl2
    simp at hl2
  constructor
  · rw [direct_translate_valid_branch L gw c p hc hp hl', hgw1]
    simp [hsrc1]
  · rw [translate_command_reply_valid_branch L gw ot code rest dok ht hl2', hgw2]
    simp [hsrc2]

/-- Witness for C10: the demo gateway detects "es", which is not in the demo
catalog, and both handlers fall back to "Unknown". -/
theorem c10_unknown_source_fallback_witness :
    direct_translate demoCatalog gwOk ("en" ++ ":" ++ " hi")
      = [Event.gatewayTranslate (pyStrip " hi") (pyLower (pyStrip "en")),
         Event.reply (response_msg (pyCapitalize "Unknown")
           (pyCapitalize ((demoCatalog.lookup (pyLower (pyStrip "en"))).getD "")) "hi")]
    ∧ translate_command_reply demoCatalog gwOk (some (some "hola")) ["EN"] true
      = [Event.gatewayTranslate "hola" (pyLower "EN"),
         Event.replyOrig (response_msg (pyCapitalize "Unknown")
           (pyCapitalize ((demoCatalog.lookup (pyLower "EN")).getD "")) "hola"),
         Event.deleteAttempt] ++ (if true then [] else [Event.logWarning]) :=
  c10_unknown_source_fallback demoCatalog gwOk "en" " hi" "hola" "EN" [] true
    ⟨"hi", "es"⟩ ⟨"hola", "es"⟩
    (by decide) (by decide) (by decide) rfl (by decide)
    (by decide) (by decide) rfl (by decide)

/-- C4: every target code a handler passes to the gateway is a catalog key,
and a request carrying an unknown code is answered with the corrective
message without reaching the gateway, in both handlers. -/
theorem c4_gateway_target_always_valid (L : Catalog) (gw : Gateway) (s : String)
    (r : Option (Option String)) (args : List String) (dok : Bool) :
    (∀ q ∈ gatewayCalls (direct_translate L gw s), (L.lookup q.2).isSome = true)
    ∧ (∀ q ∈ gatewayCalls (translate_command_reply L gw r args dok),
        (L.lookup q.2).isSome = true)
    ∧ (∀ ot code rest, r = some ot → args = code :: rest →
        L.lookup (pyLower code) = none →
        translate_command_reply L gw r args dok
          = [Event.reply (invalid_code_msg (pyLower code))])
    ∧ (containsColon s = true →
        pyStrip (split_first_colon s).2 ≠ "" →
        L.lookup (pyLower (pyStrip (split_first_colon s).1)) = none →
        direct_translate L gw s
          = [Event.reply (invalid_code_msg (pyLower (pyStrip (split_first_colon s).1)))]) := by
  refine ⟨?_, ?_, ?_, ?_⟩
  · intro q hq
    unfold direct_translate at hq
    by_cases h1 : containsColon s = false
    · simp [h1, gatewayCalls] at hq
    · by_cases h2 : pyStrip (split_first_colon s).2 = ""
      · simp [h1, h2, gatewayCalls] at hq
      · by_cases h3 : L.lookup (pyLower (pyStrip (split_first_colon s).1)) = none
        · simp [h1, h2, h3, gatewayCalls] at hq
        · rcases hgw : gw (pyStrip (split_first_colon s).2)
              (pyLower (pyStrip (split_first_colon s).1)) with e | tr
          · simp [h1, h2, h3, hgw, gatewayCalls] at hq
            subst hq
            exact Option.ne_none_iff_isSome.mp h3
          · simp [h1, h2, h3, hgw, gatewayCalls] at hq
            subst hq
            exact Option.ne_none_iff_isSome.mp h3
  · intro q hq
    rcases r with _ | ot
    · simp [translate_command_reply, gatewayCalls] at hq
    · rcases args with _ | ⟨code, rest⟩
      · simp [translate_command_reply, gatewayCalls] at hq
      · unfold translate_command_reply at hq
        by_cases h3 : L.lookup (pyLower code) = none
        · simp [h3, gatewayCalls] at hq
        · by_cases h4 : ot.getD "" = ""
          · simp [h3, h4, gatewayCalls] at hq
          · rcases hgw : gw (ot.getD "") (pyLower code) with e | tr
            · simp [h3, h4, hgw, gatewayCalls] at hq
              subst hq
              exact Option.ne_none_iff_isSome.mp h3
            · rcases hd : dok <;>
                · simp [h3, h4, hgw, hd, gatewayCalls] at hq
                  subst hq
                  exact Option.ne_none_iff_isSome.mp h3
  · intro ot code rest hr ha hl
    subst hr
    subst ha
    unfold translate_command_reply
    simp [hl]
  · intro h1 h2 h3
    unfold direct_translate
    rw [h1]
    simp [h2, h3]
